import Mathlib

set_option maxRecDepth 100000

/-!
Verification of the feed-creek ad-generation pipeline (src/generate.py).

The file embeds, as executable Lean definitions, the parts of
`src/generate.py` that the verified properties are about:

* the SHA-1 content digest used both for the template file hash
  (`get_template_file_hash`) and for the per-product content fingerprint
  (`data_hash`, lines 484-493),
* the per-item extraction/filtering loop of `process_single_feed`
  (lines 396-511),
* the renderer `create_ballzy_ad` (lines 136-197) at the level of the
  layer structure of the produced image (which slots get pasted, which
  colors are used, which file name is written), with the output
  directory modelled as an explicit association list of file names,
* the orphan cleanup `cleanup_orphaned_ads` (lines 199-222),
* the image-link construction of the republished feeds
  (lines 250, 299, 349).

Byte strings are modelled as `List Nat` (each entry one byte); machine
32-bit words are `Nat` reduced modulo 2 ^ 32 where overflow matters.
An uncaught Python exception is modelled as `Except.error` with the
exception name as payload.
-/

/-- Reduce a natural number to a 32-bit machine word, as Python's
`% 0x100000000` would. -/
def w32 (x : Nat) : Nat := x % 4294967296

/-- Rotate a 32-bit word left by `n` bits (SHA-1 `ROTL`). -/
def rotl (n x : Nat) : Nat := w32 ((x <<< n) ||| (x >>> (32 - n)))

/-- SHA-1 padding (FIPS 180-4): append `0x80`, zero bytes up to 56 mod 64,
then the 64-bit big-endian bit length. -/
def sha1pad (msg : List Nat) : List Nat :=
  let len := msg.length
  let bitLen := 8 * len
  let padZeros := (119 - len % 64) % 64
  msg ++ [128] ++ List.replicate padZeros 0 ++
    (List.range 8).map (fun i => (bitLen >>> (8 * (7 - i))) % 256)

/-- Group a byte list into big-endian 32-bit words (4 bytes each). -/
def toWords : List Nat → List Nat
  | b0 :: b1 :: b2 :: b3 :: rest =>
      ((b0 <<< 24) ||| (b1 <<< 16) ||| (b2 <<< 8) ||| b3) :: toWords rest
  | _ => []

/-- Extend the 16-word message schedule by `n` further words
(`W[t] = ROTL1 (W[t-3] xor W[t-8] xor W[t-14] xor W[t-16])`). -/
def extendSchedule (w : List Nat) : Nat → List Nat
  | 0 => w
  | n + 1 =>
    let v := extendSchedule w n
    let m := v.length
    v ++ [rotl 1 (((v.getD (m - 3) 0) ^^^ (v.getD (m - 8) 0)) ^^^
                  ((v.getD (m - 14) 0) ^^^ (v.getD (m - 16) 0)))]

/-- The SHA-1 round function and round constant for round `t`. -/
def sha1fk (t b c d : Nat) : Nat × Nat :=
  if t < 20 then ((b &&& c) ||| ((4294967295 ^^^ b) &&& d), 1518500249)
  else if t < 40 then ((b ^^^ c) ^^^ d, 1859775393)
  else if t < 60 then ((b &&& c) ||| ((b &&& d) ||| (c &&& d)), 2400959708)
  else ((b ^^^ c) ^^^ d, 3395469782)

/-- One SHA-1 compression step applied to the 5-word state. -/
def sha1Step (w : List Nat) (st : Nat × Nat × Nat × Nat × Nat) (t : Nat) :
    Nat × Nat × Nat × Nat × Nat :=
  let (a, b, c, d, e) := st
  let (f, k) := sha1fk t b c d
  (w32 (rotl 5 a + f + e + k + w.getD t 0), a, rotl 30 b, c, d)

/-- Process one 64-byte block, updating the 5-word chaining state. -/
def sha1Block (h : Nat × Nat × Nat × Nat × Nat) (block : List Nat) :
    Nat × Nat × Nat × Nat × Nat :=
  let w := extendSchedule (toWords block) 64
  let (a, b, c, d, e) := (List.range 80).foldl (sha1Step w) h
  let (h0, h1, h2, h3, h4) := h
  (w32 (h0 + a), w32 (h1 + b), w32 (h2 + c), w32 (h3 + d), w32 (h4 + e))

/-- Split a byte list into 64-byte chunks, with an explicit fuel argument
(the fuel is the list length, which bounds the number of chunks). -/
def chunks64Aux : Nat → List Nat → List (List Nat)
  | 0, _ => []
  | _, [] => []
  | n + 1, l => l.take 64 :: chunks64Aux n (l.drop 64)

/-- Split a byte list into 64-byte chunks. -/
def chunks64 (l : List Nat) : List (List Nat) := chunks64Aux l.length l

/-- The five 32-bit result words of SHA-1 over a byte string. -/
def sha1Words (msg : List Nat) : List Nat :=
  let (h0, h1, h2, h3, h4) :=
    (chunks64 (sha1pad msg)).foldl sha1Block
      (1732584193, 4023233417, 2562383102, 271733878, 3285377520)
  [h0, h1, h2, h3, h4]

/-- Lower-case hexadecimal digit for a value below 16. -/
def hexChar (n : Nat) : Char :=
  if n < 10 then Char.ofNat (48 + n) else Char.ofNat (87 + n)

/-- The 8 hex digits of a 32-bit word, most significant first. -/
def word8Hex (x : Nat) : List Char :=
  (List.range 8).map (fun i => hexChar ((x >>> (4 * (7 - i))) % 16))

/-- The 40 hex characters of `hashlib.sha1(msg).hexdigest()`. -/
def sha1HexChars (msg : List Nat) : List Char :=
  ((sha1Words msg).map word8Hex).flatten

/-- `hashlib.sha1(msg).hexdigest()` as a string. -/
def sha1Hex (msg : List Nat) : String := String.mk (sha1HexChars msg)

/-- UTF-8 encoding of one Unicode scalar value (Python `str.encode('utf-8')`,
per character). -/
def utf8Char (c : Char) : List Nat :=
  let n := c.toNat
  if n < 128 then [n]
  else if n < 2048 then [192 ||| (n >>> 6), 128 ||| (n &&& 63)]
  else if n < 65536 then
    [224 ||| (n >>> 12), 128 ||| ((n >>> 6) &&& 63), 128 ||| (n &&& 63)]
  else
    [240 ||| (n >>> 18), 128 ||| ((n >>> 12) &&& 63),
     128 ||| ((n >>> 6) &&& 63), 128 ||| (n &&& 63)]

/-- UTF-8 encoding of a string (Python `str.encode('utf-8')`). -/
def utf8Encode (s : String) : List Nat := (s.data.map utf8Char).flatten

example : sha1Hex (utf8Encode "abc") = "a9993e364706816aba3e25717850c26c9cd0d89d" := by
  decide

example : sha1Hex [] = "da39a3ee5e6b4b0d3255bfef95601890afd80709" := by
  decide

/-- The whitespace characters of Python `str.strip()` / `str.split()`
(space, tab, newline, carriage return, vertical tab, form feed; exotic
Unicode whitespace is not modelled — feed fields are ASCII). -/
def isPySpace (c : Char) : Bool :=
  c = ' ' || c = Char.ofNat 9 || c = Char.ofNat 10 || c = Char.ofNat 13 ||
  c = Char.ofNat 11 || c = Char.ofNat 12

/-- Python `str.strip()` with no arguments. -/
def pyStrip (s : String) : String :=
  String.mk (((s.data.dropWhile isPySpace).reverse.dropWhile isPySpace).reverse)

/-- Python `str.lower()` restricted to ASCII (feed comparisons in the
source only involve ASCII letters). -/
def pyLower (s : String) : String := String.mk (s.data.map Char.toLower)

/-- Whether `l` begins with `pre` (element-wise). -/
def listStartsWith [DecidableEq α] : List α → List α → Bool
  | _, [] => true
  | [], _ :: _ => false
  | a :: as, b :: bs => a = b && listStartsWith as bs

/-- Whether `needle` occurs as a contiguous sublist of the haystack
(Python's `in` on strings, at the character-list level). -/
def listContainsSub [DecidableEq α] (needle : List α) : List α → Bool
  | [] => listStartsWith [] needle
  | a :: t => listStartsWith (a :: t) needle || listContainsSub needle t

/-- Python `needle in hay` for strings. -/
def containsSub (hay needle : String) : Bool := listContainsSub needle.data hay.data

/-- Python `str.split()` with no arguments: split on whitespace runs,
discarding empty fields. `acc` holds the characters of the current word
in reverse. -/
def pySplitWsAux : List Char → List Char → List (List Char)
  | [], acc => if acc.isEmpty then [] else [acc.reverse]
  | c :: rest, acc =>
    if isPySpace c then
      if acc.isEmpty then pySplitWsAux rest []
      else acc.reverse :: pySplitWsAux rest []
    else pySplitWsAux rest (c :: acc)

/-- Python `str.split()` with no arguments. -/
def pySplitWs (s : String) : List String := (pySplitWsAux s.data []).map String.mk

/-- Python `str.replace(needle, repl)` at the character-list level:
leftmost non-overlapping occurrences. The fuel argument (instantiated
with the list length, which bounds the number of steps) keeps the
recursion structural. The empty-needle case of Python (insertion between
characters) is not modelled; the source only replaces the non-empty
needles `"EUR"` and `" EUR"`. -/
def replaceListAux (needle repl : List Char) : Nat → List Char → List Char
  | 0, l => l
  | _ + 1, [] => []
  | fuel + 1, c :: rest =>
    if listStartsWith (c :: rest) needle && !needle.isEmpty then
      repl ++ replaceListAux needle repl fuel (rest.drop (needle.length - 1))
    else c :: replaceListAux needle repl fuel rest

/-- Python `str.replace(needle, repl)`. -/
def pyReplace (s needle repl : String) : String :=
  String.mk (replaceListAux needle.data repl.data s.data.length s.data)

/-- Python `repr(s)` for a string, as used by `str(list_of_strings)`:
single quotes unless the string contains a single quote and no double
quote; backslash, the chosen quote, newline, carriage return and tab are
escaped; other control bytes become `\xNN`. (Non-printable non-ASCII
escaping is not modelled; photo URLs are printable ASCII.) -/
def pyReprStr (s : String) : String :=
  let sq : Char := Char.ofNat 39
  let bs : Char := Char.ofNat 92
  let q : Char := if s.data.contains sq && !s.data.contains '"' then '"' else sq
  let esc : Char → List Char := fun c =>
    if c = bs then [bs, bs]
    else if c = q then [bs, q]
    else if c = Char.ofNat 10 then [bs, 'n']
    else if c = Char.ofNat 13 then [bs, 'r']
    else if c = Char.ofNat 9 then [bs, 't']
    else if c.toNat < 32 || c.toNat = 127 then
      [bs, 'x', hexChar (c.toNat / 16), hexChar (c.toNat % 16)]
    else [c]
  String.mk ((q :: (s.data.map esc).flatten) ++ [q])

/-- Python `str(image_urls)` for a list of strings (line 489 of the
source): bracketed, comma-space separated `repr`s of the elements. -/
def pyStrList (urls : List String) : String :=
  "[" ++ String.intercalate ", " (urls.map pyReprStr) ++ "]"

/-- `get_template_file_hash` (lines 86-106): the template file contents
are passed explicitly (`none` models a missing file, giving the fixed
string `"notfound"`); an existing file is read whole and its SHA-1 hex
digest truncated to 8 characters. (The source's `"error"` branch for a
failing read of an existing file is not modelled: reads succeed here.) -/
def get_template_file_hash (tpl : Option (List Nat)) : String :=
  match tpl with
  | none => "notfound"
  | some bytes => String.mk ((sha1HexChars bytes).take 8)

/-- The `data_string` of lines 485-491: the `"|"`-join of product id, raw
sale price text, raw price text, `str(image_urls)` and the template hash. -/
def dataString (product_id raw_sale_price raw_price : String)
    (image_urls : List String) (template_hash : String) : String :=
  product_id ++ "|" ++ raw_sale_price ++ "|" ++ raw_price ++ "|" ++
    pyStrList image_urls ++ "|" ++ template_hash

/-- The content fingerprint `data_hash` of line 493: SHA-1 of the UTF-8
encoded `data_string`, hex digest truncated to 8 characters. -/
def data_hash (product_id raw_sale_price raw_price : String)
    (image_urls : List String) (template_hash : String) : String :=
  String.mk ((sha1HexChars (utf8Encode
    (dataString product_id raw_sale_price raw_price image_urls template_hash))).take 8)

example :
    dataString "P1" "" "19.99 EUR" ["u1", "u2"] "b36d92d5" =
      "P1||19.99 EUR|['u1', 'u2']|b36d92d5" := by decide

example :
    data_hash "P1" "" "19.99 EUR" ["u1", "u2"] "b36d92d5" = "8271c24d" := by decide

example :
    get_template_file_hash (some [116, 53, 53, 50, 56, 49]) = "b36d92d5" := by decide

example :
    get_template_file_hash (some [116, 54, 56, 53, 54, 52]) = "b36d92d5" := by decide

/-- Line 17 of the source. -/
def MAX_PRODUCTS_TO_GENERATE : Nat := 5000

/-- Line 71 of the source. -/
def GITHUB_PAGES_BASE_URL : String :=
  "https://tanelneemoja.github.io/feed-creek/generated_ads"

/-- Line 80 of the source. -/
def NORMAL_PRICE_COLOR : String := "#0055FF"

/-- Line 81 of the source. -/
def SALE_PRICE_COLOR : String := "#cc02d2"

/-- One entry of `LAYOUT_CONFIG["slots"]` (lines 25-29). -/
structure SlotCfg where
  x : Nat
  y : Nat
  w : Nat
  h : Nat
  centerY : Rat
deriving DecidableEq, Repr

/-- `LAYOUT_CONFIG["slots"]` (lines 25-29). -/
def LAYOUT_SLOTS : List SlotCfg :=
  [{ x := 25, y := 25, w := 606, h := 700, centerY := (1 : Rat) / 2 },
   { x := 656, y := 305, w := 522, h := 624, centerY := (3 : Rat) / 5 },
   { x := 25, y := 823, w := 606, h := 350, centerY := (1 : Rat) / 2 }]

/-- `LAYOUT_CONFIG["price"]` (lines 30-39), geometry fields only. -/
structure PriceCfg where
  x : Nat
  y : Nat
  fontSize : Nat
  rectX0 : Nat
  rectY0 : Nat
  rectX1 : Nat
  rectY1 : Nat
deriving DecidableEq, Repr

/-- `LAYOUT_CONFIG["price"]` (lines 30-39). -/
def PRICE_CFG : PriceCfg :=
  { x := 920, y := 1050, fontSize := 80,
    rectX0 := 656, rectY0 := 950, rectX1 := 1178, rectY1 := 1175 }

/-- ASCII decimal digit test. -/
def isDigitChar (c : Char) : Bool := 48 ≤ c.toNat && c.toNat ≤ 57

/-- Value of a digit list, most significant first. -/
def digitsVal (l : List Char) : Nat := l.foldl (fun a c => 10 * a + (c.toNat - 48)) 0

/-- Parse a token as a plain decimal number, returning (numerator, number
of fraction digits), so the value is `num / 10 ^ fracLen`. Models the
argument forms of Python `float()` the price feed uses (optional sign,
digits, optional decimal point); exponent, underscore, `inf`/`nan` forms
are not modelled and fall through to the `ValueError` branch. -/
def parseDec (tok : String) : Option (Int × Nat) :=
  let l := tok.data
  let signed : Bool × List Char :=
    match l with
    | c :: rest => if c = '-' then (true, rest) else if c = '+' then (false, rest) else (false, l)
    | [] => (false, [])
  let neg := signed.1
  let l2 := signed.2
  let intPart := l2.takeWhile isDigitChar
  let rest2 := l2.dropWhile isDigitChar
  let mk : Nat → Nat → Option (Int × Nat) := fun v fl =>
    some (if neg then -(v : Int) else (v : Int), fl)
  match rest2 with
  | [] => if intPart.isEmpty then none else mk (digitsVal intPart) 0
  | c :: rest3 =>
    if c = '.' then
      let fracPart := rest3.takeWhile isDigitChar
      let rest4 := rest3.dropWhile isDigitChar
      if rest4.isEmpty && !(intPart.isEmpty && fracPart.isEmpty) then
        mk (digitsVal (intPart ++ fracPart)) fracPart.length
      else none
    else none

/-- Round `a / b` (with `b > 0`) to the nearest integer, ties to even —
the rounding of Python's fixed-point float formatting, modelled at exact
decimal precision. -/
def roundHalfEvenDiv (a b : Int) : Int :=
  let q := a.ediv b
  let r := a.emod b
  if 2 * r < b then q
  else if b < 2 * r then q + 1
  else if q % 2 = 0 then q else q + 1

/-- Python `f"{v:.2f}"` for the exact decimal `num / 10 ^ fracLen`
(binary-float representation error of the source is not modelled; it is
observable only for prices needing more than two exact decimals). -/
def twoDecString (num : Int) (fracLen : Nat) : String :=
  let scale : Int := (10 : Int) ^ fracLen
  let n2 := roundHalfEvenDiv (num * 100) scale
  let a := n2.natAbs
  (if n2 < 0 then "-" else "") ++ toString (a / 100) ++ "." ++
    (if a % 100 < 10 then "0" else "") ++ toString (a % 100)

/-- The local `format_price` of `process_single_feed` (lines 451-459).
Takes the element (`none` absent, `some none` null text); an uncaught
`IndexError` (whitespace-only text makes `split()[0]` fail) is an
`Except.error`. -/
def format_price (currency : String) (element : Option (Option String)) :
    Except String String :=
  match element with
  | none => .ok ""
  | some none => .ok ""
  | some (some t) =>
    match pySplitWs t with
    | [] => .error "IndexError"
    | tok :: _ =>
      let sym := pyReplace currency "EUR" "€"
      match parseDec tok with
      | some (num, fracLen) =>
        let scale : Int := (10 : Int) ^ fracLen
        if num.emod scale = 0 then .ok (toString (num.ediv scale) ++ sym)
        else .ok (twoDecString num fracLen ++ sym)
      | none => .ok (pyReplace tok " EUR" "€")

deriving instance DecidableEq for Except

example : format_price "EUR" (some (some "19.99 EUR")) = .ok "19.99€" := by decide

example : format_price "EUR" (some (some "12.00 EUR")) = .ok "12€" := by decide

example : format_price "EUR" (some (some "abc")) = .ok "abc" := by decide

example : format_price "EUR" (some (some "  ")) = .error "IndexError" := by decide

/-- One `<item>` of the feed, restricted to the child elements the
extraction loop reads. For each single element: `none` models an absent
element, `some none` an element whose `.text` is Python `None`, and
`some (some s)` an element with text `s`. The last field lists the
texts of the `g:additional_image_link` elements in document order. -/
structure FeedItem where
  gId : Option (Option String)
  gGoogleProductCategory : Option (Option String)
  gCategory : Option (Option String)
  plainGoogleProductCategory : Option (Option String)
  customLabel0 : Option (Option String)
  gSalePrice : Option (Option String)
  gPrice : Option (Option String)
  gImageLink : Option (Option String)
  gAdditionalImageLinks : List (Option String)
deriving DecidableEq

/-- One entry of `products_for_feed` (lines 499-510). The passthrough
XML nodes (`item_elements`, `nodes`) are omitted: the verified
properties only inspect the fields listed here. -/
structure ProductData where
  id : String
  price_state : String
  formatted_price : String
  formatted_sale_price : String
  image_urls : List String
  final_price_color : String
  formatted_display_price : String
  data_hash : String
deriving DecidableEq

/-- Lines 408-414: category element selection — the first *present*
element among `g:google_product_category`, `g:category`, and the
non-namespaced `google_product_category`. -/
def categoryElement (item : FeedItem) : Option (Option String) :=
  match item.gGoogleProductCategory with
  | some t => some t
  | none =>
    match item.gCategory with
    | some t => some t
    | none => item.plainGoogleProductCategory

/-- Lines 416-420: the category filter — the selected category element
is present with non-null text containing `"street shoes"` or `"boots"`
after strip+lower. -/
def is_correct_category (item : FeedItem) : Bool :=
  match categoryElement item with
  | some (some t) =>
    let ct := pyLower (pyStrip t)
    containsSub ct "street shoes" || containsSub ct "boots"
  | _ => false

/-- Lines 422-427: the `custom_label_0` filter — present, non-null text
equal to `"lifestyle"` after strip+lower. -/
def is_lifestyle (item : FeedItem) : Bool :=
  match item.customLabel0 with
  | some (some t) => pyLower (pyStrip t) == "lifestyle"
  | _ => false

/-- Lines 436-437: the raw price text — `""` when the element is absent,
otherwise the element's text (which may be Python `None`, here `none`). -/
def rawText (el : Option (Option String)) : Option String :=
  match el with
  | none => some ""
  | some t => t

/-- Python truthiness of `element is not None and element.text`:
the text when the element is present with non-null, non-empty text. -/
def truthyText (el : Option (Option String)) : Option String :=
  match el with
  | some (some t) => if t.isEmpty then none else some t
  | _ => none

/-- Lines 464-471: the collected image URLs — the stripped main
`g:image_link` text if truthy, then the stripped texts of the first two
truthy `g:additional_image_link` elements (enumeration index below 2). -/
def imageUrls (item : FeedItem) : List String :=
  let main :=
    match truthyText item.gImageLink with
    | some t => [pyStrip t]
    | none => []
  let adds := item.gAdditionalImageLinks.enum.filterMap (fun p =>
    match p.2 with
    | some t => if p.1 < 2 && !t.isEmpty then some (pyStrip t) else none
    | none => none)
  main ++ adds

/-- The artifact file name `ad_{product_id}_{data_hash}.jpg`
(line 144 and line 496 of the source). -/
def adFileName (pid dh : String) : String := "ad_" ++ pid ++ "_" ++ dh ++ ".jpg"

/-- One iteration of the extraction/filtering loop of
`process_single_feed` (lines 400-511) on a single item, in source
order: id check, category/label filter, raw price extraction, price
state selection (element presence, lines 440-449), display price
formatting, image URL collection, data-string hash. `Except.error`
models an uncaught Python exception (which aborts the whole country
run), `.ok none` a `continue` (the item is silently skipped), and
`.ok (some p)` the product appended to `products_for_feed`. The
`"|".join` of line 485 raises `TypeError` when a present price element
has null text (its raw value is Python `None`). -/
def extractItem (currency template_hash : String) (item : FeedItem) :
    Except String (Option ProductData) :=
  match item.gId with
  | some (some idText) =>
    let product_id := pyStrip idText
    if !(is_correct_category item && is_lifestyle item) then .ok none
    else
      let raw_sale_price := rawText item.gSalePrice
      let raw_price := rawText item.gPrice
      let stateSel : Option (Option (Option String) × String × String) :=
        match item.gSalePrice with
        | some t => some (some t, SALE_PRICE_COLOR, "sale")
        | none =>
          match item.gPrice with
          | some t => some (some t, NORMAL_PRICE_COLOR, "normal")
          | none => none
      match stateSel with
      | none => .ok none
      | some (displayEl, final_price_color, price_state) =>
        match format_price currency displayEl with
        | .error e => .error e
        | .ok formatted_display_price =>
          let image_urls := imageUrls item
          if image_urls.isEmpty then .ok none
          else
            match raw_sale_price, raw_price with
            | some rsp, some rp =>
              let dh := data_hash product_id rsp rp image_urls template_hash
              match format_price currency item.gPrice,
                    format_price currency item.gSalePrice with
              | .ok fp, .ok fsp =>
                .ok (some
                  { id := product_id
                    price_state := price_state
                    formatted_price := fp
                    formatted_sale_price := fsp
                    image_urls := image_urls.take 3
                    final_price_color := final_price_color
                    formatted_display_price := formatted_display_price
                    data_hash := dh })
              | .error e, _ => .error e
              | _, .error e => .error e
            | _, _ => .error "TypeError"
  | _ => .ok none

/-- The extraction loop of `process_single_feed` (lines 396-511) over
the item sequence, threading `product_count` (the loop breaks once it
reaches `MAX_PRODUCTS_TO_GENERATE`) and accumulating
`products_for_feed` together with the `valid_ad_filenames` set
(modelled as the list of file names in insertion order). -/
def processLoop (currency template_hash : String) :
    List FeedItem → Nat → Except String (List ProductData × List String)
  | [], _ => .ok ([], [])
  | item :: rest, count =>
    if MAX_PRODUCTS_TO_GENERATE ≤ count then .ok ([], [])
    else
      match extractItem currency template_hash item with
      | .error e => .error e
      | .ok none => processLoop currency template_hash rest count
      | .ok (some p) =>
        match processLoop currency template_hash rest (count + 1) with
        | .error e => .error e
        | .ok (ps, names) => .ok (p :: ps, adFileName p.id p.data_hash :: names)

/-- The extraction phase of `process_single_feed` for a whole item
sequence, starting from `product_count = 0`. -/
def processFeedItems (currency template_hash : String) (items : List FeedItem) :
    Except String (List ProductData × List String) :=
  processLoop currency template_hash items 0

/-- The state of the frame template asset as seen by `Image.open` at
line 151: the file may be missing (`FileNotFoundError`), present but
undecodable (any other exception), or a decodable image with the given
content. -/
inductive TemplateSource where
  | missing
  | corrupt
  | ok (content : String)
deriving DecidableEq

/-- The bottom layer of the composited ad (lines 150-153): either the
decoded template image, or — when the template file is missing — the
plain white RGBA canvas the `except FileNotFoundError` branch creates. -/
inductive BaseLayer where
  | fromTemplate (content : String)
  | whiteCanvas
deriving DecidableEq

/-- One photo pasted into a slot by lines 155-165: the slot index, the
decoded photo content, and the paste geometry (the `ImageOps.fit` result
has exactly the slot's width and height and is pasted at the slot's
origin). -/
structure PastedPhoto where
  slotIndex : Nat
  photo : String
  x : Nat
  y : Nat
  w : Nat
  h : Nat
deriving DecidableEq

/-- The composited ad image at the layer level (pixel rasterisation is
not modelled): base layer, pasted photos in slot order, the outline
rectangle's color (line 176), the price text and its fill color and
center anchor (lines 190-193). -/
structure AdImage where
  base : BaseLayer
  pasted : List PastedPhoto
  borderColor : String
  priceText : String
  textColor : String
  textAnchorX : Nat
  textAnchorY : Nat
deriving DecidableEq

/-- The output directory as an association list from file name to saved
image content. -/
abbrev FileSys := List (String × AdImage)

/-- `os.path.exists` / file lookup on the modelled output directory. -/
def lookupFile (fs : FileSys) (name : String) : Option AdImage :=
  match fs with
  | [] => none
  | (n, a) :: rest => if n = name then some a else lookupFile rest name

/-- Writing the final JPEG (line 196): the name is bound to the content. -/
def writeFile (fs : FileSys) (name : String) (content : AdImage) : FileSys :=
  (name, content) :: fs

/-- The body of the photo loop of lines 155-168, threading the
enumeration index: a slot whose index is beyond the request's URL list
is skipped (line 156), and a slot whose fetch or decode fails (`fetch`
returns `none`, covering the catch-all `except` of lines 166-168) is
left unfilled while processing continues with the next slot. -/
def fillSlotsAux (fetch : String → Option String) (image_urls : List String) :
    Nat → List SlotCfg → List PastedPhoto
  | _, [] => []
  | i, slot :: rest =>
    if i < image_urls.length then
      match fetch (image_urls.getD i "") with
      | some img =>
        { slotIndex := i, photo := img,
          x := slot.x, y := slot.y, w := slot.w, h := slot.h } ::
          fillSlotsAux fetch image_urls (i + 1) rest
      | none => fillSlotsAux fetch image_urls (i + 1) rest
    else fillSlotsAux fetch image_urls (i + 1) rest

/-- The photo loop of lines 155-168 over the configured slots
(`enumerate(LAYOUT_CONFIG["slots"])` starting at index 0). -/
def fillSlots (fetch : String → Option String) (image_urls : List String) :
    List PastedPhoto :=
  fillSlotsAux fetch image_urls 0 LAYOUT_SLOTS

/-- The outcome of one `create_ballzy_ad` call. -/
structure CallResult where
  fs : FileSys
  result : Except String String
  skipped : Bool
deriving DecidableEq

/-- `create_ballzy_ad` (lines 136-197). Model parameters: the output
directory `fs`, the photo fetcher `fetch` (`none` = any fetch/decode
failure), and the template state; then the source's own parameters in
source order. Control flow: the fingerprint-named file is computed
first and the call returns immediately (skipping all compositing) when
it already exists (lines 144-148); otherwise the template is opened —
`FileNotFoundError` falls back to a white canvas (lines 150-153), any
other decode failure propagates as an uncaught exception; then the
photo loop, the border rectangle, the price text (fill color =
`price_color` for both), and the JPEG write. -/
def create_ballzy_ad (fs : FileSys) (fetch : String → Option String)
    (template : TemplateSource) (image_urls : List String)
    (price_text product_id price_color data_hash : String) : CallResult :=
  let output_name := adFileName product_id data_hash
  if (lookupFile fs output_name).isSome then
    { fs := fs, result := .ok output_name, skipped := true }
  else
    match template with
    | .corrupt => { fs := fs, result := .error "UnidentifiedImageError", skipped := false }
    | t =>
      let base := match t with
        | .ok c => BaseLayer.fromTemplate c
        | _ => BaseLayer.whiteCanvas
      let ad : AdImage :=
        { base := base
          pasted := fillSlots fetch image_urls
          borderColor := price_color
          priceText := price_text
          textColor := price_color
          textAnchorX := PRICE_CFG.x
          textAnchorY := PRICE_CFG.y }
      { fs := writeFile fs output_name ad, result := .ok output_name, skipped := false }

/-- The concurrent generation phase (lines 517-542), sequentialised:
each product's `create_ballzy_ad` future is awaited with its exception
caught (lines 536-540), so one failure never aborts the batch; the list
of per-product outcomes is returned alongside the final directory
state. -/
def runBatch (fetch : String → Option String) (template : TemplateSource)
    (fs : FileSys) : List ProductData → FileSys × List (Except String String)
  | [] => (fs, [])
  | p :: rest =>
    let r := create_ballzy_ad fs fetch template p.image_urls
      p.formatted_display_price p.id p.final_price_color p.data_hash
    let next := runBatch fetch template r.fs rest
    (next.1, r.result :: next.2)

/-- Whether a file name matches the glob pattern `ad_*.jpg` of line 207
(`*` matches any, possibly empty, character run without a path
separator; directory entries contain no separator). -/
def matchesAdGlob (name : String) : Bool :=
  listStartsWith name.data "ad_".data &&
    listStartsWith name.data.reverse ".jpg".data.reverse

/-- `cleanup_orphaned_ads` (lines 199-222) on the modelled output
directory listing: the glob selects the names matching `ad_*.jpg`, and
each selected file whose exact name is not in the valid set is removed
(`os.remove` always succeeds in the model). Returns the surviving
listing in order. -/
def cleanup_orphaned_ads (dirListing : List String)
    (valid_filenames : List String) : List String :=
  dirListing.filter (fun name => !(matchesAdGlob name && !valid_filenames.contains name))

/-- The republished Meta feed image link for one product (line 250). -/
def metaImageLink (p : ProductData) : String :=
  GITHUB_PAGES_BASE_URL ++ "/ad_" ++ p.id ++ "_" ++ p.data_hash ++ ".jpg"

/-- The republished TikTok feed image link for one product (line 299). -/
def tiktokImageLink (p : ProductData) : String :=
  GITHUB_PAGES_BASE_URL ++ "/ad_" ++ p.id ++ "_" ++ p.data_hash ++ ".jpg"

/-- The Google CSV feed `Image URL` column for one product (line 349). -/
def googleImageUrl (p : ProductData) : String :=
  GITHUB_PAGES_BASE_URL ++ "/ad_" ++ p.id ++ "_" ++ p.data_hash ++ ".jpg"

/-- A fully valid normal-price feed item (the spec's end-to-end `P1`
scenario): category "Street Shoes", label "Lifestyle", price
"19.99 EUR", no sale price, two photo sources. -/
def itemP1 : FeedItem :=
  { gId := some (some "P1")
    gGoogleProductCategory := some (some "Street Shoes")
    gCategory := none
    plainGoogleProductCategory := none
    customLabel0 := some (some "Lifestyle")
    gSalePrice := none
    gPrice := some (some "19.99 EUR")
    gImageLink := some (some "u1")
    gAdditionalImageLinks := [some "u2"] }

/-- `itemP1` with a sale price element added. -/
def itemP1Sale : FeedItem :=
  { itemP1 with gSalePrice := some (some "15.99 EUR") }

/-- A feed item passing every filter whose main `g:image_link` element
is absent while one `g:additional_image_link` is present. -/
def itemNoPrimary : FeedItem :=
  { gId := some (some "X1")
    gGoogleProductCategory := some (some "boots")
    gCategory := none
    plainGoogleProductCategory := none
    customLabel0 := some (some "lifestyle")
    gSalePrice := none
    gPrice := some (some "10 EUR")
    gImageLink := none
    gAdditionalImageLinks := [some "a1"] }

/-- The product record `itemP1` extracts to under template hash
`"b36d92d5"`. -/
def productP1 : ProductData :=
  { id := "P1"
    price_state := "normal"
    formatted_price := "19.99€"
    formatted_sale_price := ""
    image_urls := ["u1", "u2"]
    final_price_color := "#0055FF"
    formatted_display_price := "19.99€"
    data_hash := "8271c24d" }

example : extractItem "EUR" "b36d92d5" itemP1 = .ok (some productP1) := by decide

/-- Appending to a fixed string on the left is injective. -/
theorem string_append_right_inj (a : String) {h1 h2 : String}
    (h : a ++ h1 = a ++ h2) : h1 = h2 := by
  apply String.ext
  have hd := congrArg String.data h
  rw [String.data_append, String.data_append] at hd
  exact List.append_cancel_left hd

/-- C1 (amended): the content fingerprint is the deterministic truncated
SHA-1 digest of the data string built from product identifier, raw
sale-price and price fields, ordered photo source list and template
content hash; two distinct template hashes always give distinct digest
input strings (so changing the template asset's content changes the
fingerprint input whenever its truncated content hash changes). -/
theorem c1_fingerprint_derivation (pid sp rp : String) (urls : List String)
    {th1 th2 : String} (hne : th1 ≠ th2) :
    dataString pid sp rp urls th1 ≠ dataString pid sp rp urls th2 ∧
    ∀ th, data_hash pid sp rp urls th =
      String.mk ((sha1HexChars (utf8Encode (dataString pid sp rp urls th))).take 8) := by
  refine ⟨fun heq => hne (string_append_right_inj _ heq), fun th => rfl⟩

/-- C1 witness: two distinct template hashes give distinct fingerprint
inputs at a concrete request. -/
theorem c1_fingerprint_derivation_witness :
    ("b36d92d5" : String) ≠ "00000000" ∧
    dataString "P1" "" "19.99 EUR" ["u1", "u2"] "b36d92d5" ≠
      dataString "P1" "" "19.99 EUR" ["u1", "u2"] "00000000" :=
  ⟨by decide, (c1_fingerprint_derivation "P1" "" "19.99 EUR" ["u1", "u2"]
      (by decide)).1⟩

/-- C1 counterexample: the template byte strings `t55281` and `t68564`
differ, but their truncated SHA-1 content hashes collide (both are
`"b36d92d5"`), so every fingerprint computed from them is unchanged —
changing the template asset's content does not always change the
fingerprint. -/
theorem c1_template_change_fingerprint_collision :
    ([116, 53, 53, 50, 56, 49] : List Nat) ≠ [116, 54, 56, 53, 54, 52] ∧
    get_template_file_hash (some [116, 53, 53, 50, 56, 49]) =
      get_template_file_hash (some [116, 54, 56, 53, 54, 52]) ∧
    data_hash "P1" "" "19.99 EUR" ["u1", "u2"]
        (get_template_file_hash (some [116, 53, 53, 50, 56, 49])) =
      data_hash "P1" "" "19.99 EUR" ["u1", "u2"]
        (get_template_file_hash (some [116, 54, 56, 53, 54, 52])) := by
  refine ⟨by decide, by decide, ?_⟩
  have h : get_template_file_hash (some [116, 53, 53, 50, 56, 49]) =
      get_template_file_hash (some [116, 54, 56, 53, 54, 52]) := by decide
  rw [h]

/-- A name survives `cleanup_orphaned_ads` iff it was listed and is not
a pattern-matching orphan. -/
theorem cleanup_mem_iff (dirListing valid : List String) (name : String) :
    name ∈ cleanup_orphaned_ads dirListing valid ↔
      name ∈ dirListing ∧ (matchesAdGlob name = false ∨ name ∈ valid) := by
  rw [cleanup_orphaned_ads, List.mem_filter]
  refine and_congr_right fun _ => ?_
  rcases hg : matchesAdGlob name with _ | _
  · simp [hg]
  · simp [hg, List.contains, List.elem_iff]

/-- C3: for a reconciliation call with a valid-name set, exactly those
files in the output directory that match the `ad_*.jpg` artifact pattern
and whose name is not in the valid set are deleted, and every file whose
name is in the valid set remains untouched. -/
theorem c3_cleanup_deletes_exactly_orphans (dirListing valid : List String)
    (name : String) :
    ((name ∈ dirListing ∧ name ∉ cleanup_orphaned_ads dirListing valid) ↔
       (name ∈ dirListing ∧ matchesAdGlob name = true ∧ name ∉ valid)) ∧
    (name ∈ dirListing → name ∈ valid →
       name ∈ cleanup_orphaned_ads dirListing valid) := by
  rw [cleanup_mem_iff]
  rcases hg : matchesAdGlob name with _ | _ <;> simp [hg] <;> tauto

/-- C3 witness: with artifacts for three fingerprints A, B, C on disk
and valid set consisting of A and C, exactly the artifact named for B is
deleted. -/
theorem c3_cleanup_deletes_exactly_orphans_witness :
    "ad_P_bbbbbbbb.jpg" ∈ ["ad_P_aaaaaaaa.jpg", "ad_P_bbbbbbbb.jpg", "ad_P_cccccccc.jpg"] ∧
    "ad_P_bbbbbbbb.jpg" ∉
      cleanup_orphaned_ads
        ["ad_P_aaaaaaaa.jpg", "ad_P_bbbbbbbb.jpg", "ad_P_cccccccc.jpg"]
        ["ad_P_aaaaaaaa.jpg", "ad_P_cccccccc.jpg"] ∧
    "ad_P_aaaaaaaa.jpg" ∈
      cleanup_orphaned_ads
        ["ad_P_aaaaaaaa.jpg", "ad_P_bbbbbbbb.jpg", "ad_P_cccccccc.jpg"]
        ["ad_P_aaaaaaaa.jpg", "ad_P_cccccccc.jpg"] ∧
    "ad_P_cccccccc.jpg" ∈
      cleanup_orphaned_ads
        ["ad_P_aaaaaaaa.jpg", "ad_P_bbbbbbbb.jpg", "ad_P_cccccccc.jpg"]
        ["ad_P_aaaaaaaa.jpg", "ad_P_cccccccc.jpg"] := by
  refine ⟨by decide, ?_, ?_, ?_⟩
  · exact ((c3_cleanup_deletes_exactly_orphans
      ["ad_P_aaaaaaaa.jpg", "ad_P_bbbbbbbb.jpg", "ad_P_cccccccc.jpg"]
      ["ad_P_aaaaaaaa.jpg", "ad_P_cccccccc.jpg"] "ad_P_bbbbbbbb.jpg").1.mpr
      ⟨by decide, by decide, by decide⟩).2
  · exact (c3_cleanup_deletes_exactly_orphans
      ["ad_P_aaaaaaaa.jpg", "ad_P_bbbbbbbb.jpg", "ad_P_cccccccc.jpg"]
      ["ad_P_aaaaaaaa.jpg", "ad_P_cccccccc.jpg"] "ad_P_aaaaaaaa.jpg").2
      (by decide) (by decide)
  · exact (c3_cleanup_deletes_exactly_orphans
      ["ad_P_aaaaaaaa.jpg", "ad_P_bbbbbbbb.jpg", "ad_P_cccccccc.jpg"]
      ["ad_P_aaaaaaaa.jpg", "ad_P_cccccccc.jpg"] "ad_P_cccccccc.jpg").2
      (by decide) (by decide)

/-- The generation phase awaits every submitted future, catching each
failure, so the outcome list always has one entry per product. -/
theorem runBatch_length (fetch : String → Option String)
    (template : TemplateSource) (fs : FileSys) (products : List ProductData) :
    ((runBatch fetch template fs products).2).length = products.length := by
  induction products generalizing fs with
  | nil => rfl
  | cons p rest ih => simp [runBatch, ih]

/-- C4 counterexample: with the frame template file missing, a render on
a fresh output directory does not fail — it returns the artifact path
and writes the artifact (on the white-canvas fallback base layer),
contradicting "missing template is fatal for that render". -/
theorem c4_missing_template_renders_anyway :
    (create_ballzy_ad [] (fun _ => none) .missing ["u1"] "19.99€" "P1"
        NORMAL_PRICE_COLOR "8271c24d").result = .ok "ad_P1_8271c24d.jpg" ∧
    (lookupFile (create_ballzy_ad [] (fun _ => none) .missing ["u1"] "19.99€" "P1"
        NORMAL_PRICE_COLOR "8271c24d").fs "ad_P1_8271c24d.jpg").isSome = true ∧
    ((lookupFile (create_ballzy_ad [] (fun _ => none) .missing ["u1"] "19.99€" "P1"
        NORMAL_PRICE_COLOR "8271c24d").fs "ad_P1_8271c24d.jpg").map AdImage.base) =
      some BaseLayer.whiteCanvas := by decide

/-- C4 (amended): an undecodable (corrupt) template asset is fatal for
that single render — the call raises, no artifact is written — while a
render with the template file missing still succeeds on a white-canvas
base; either way every queued render of the batch is still awaited
(one outcome per product, failures caught per future). -/
theorem c4_corrupt_template_fatal_per_render (fs : FileSys)
    (fetch : String → Option String) (urls : List String)
    (txt pid color dh : String)
    (habs : lookupFile fs (adFileName pid dh) = none) :
    (create_ballzy_ad fs fetch .corrupt urls txt pid color dh).result =
        .error "UnidentifiedImageError" ∧
    (create_ballzy_ad fs fetch .corrupt urls txt pid color dh).fs = fs ∧
    (create_ballzy_ad fs fetch .missing urls txt pid color dh).result =
        .ok (adFileName pid dh) ∧
    (∀ (template : TemplateSource) (products : List ProductData),
      ((runBatch fetch template fs products).2).length = products.length) := by
  refine ⟨?_, ?_, ?_, fun template products => runBatch_length fetch template fs products⟩ <;>
    simp [create_ballzy_ad, habs]

/-- C4 witness: the amended behaviour at a concrete render request. -/
theorem c4_corrupt_template_fatal_per_render_witness :
    lookupFile [] (adFileName "P1" "8271c24d") = none ∧
    (create_ballzy_ad [] (fun _ => none) .corrupt ["u1"] "19.99€" "P1"
        NORMAL_PRICE_COLOR "8271c24d").result = .error "UnidentifiedImageError" :=
  ⟨by decide,
   (c4_corrupt_template_fatal_per_render [] (fun _ => none) ["u1"] "19.99€" "P1"
      NORMAL_PRICE_COLOR "8271c24d" (by decide)).1⟩

/-- A render call whose fingerprint-named file already exists returns
immediately: same directory, success, skipped. -/
theorem create_skips_when_present (fs : FileSys)
    (fetch : String → Option String) (template : TemplateSource)
    (urls : List String) (txt pid color dh : String)
    (hmem : (lookupFile fs (adFileName pid dh)).isSome = true) :
    create_ballzy_ad fs fetch template urls txt pid color dh =
      { fs := fs, result := .ok (adFileName pid dh), skipped := true } := by
  unfold create_ballzy_ad
  simp [hmem]

/-- C2: the compositing work of a render is skipped iff a file with the
computed fingerprint-based name already exists in the output directory;
after any successful call, an identical second call skips the
compositing, still returns the artifact path, and leaves the directory
(in particular the existing file) untouched. -/
theorem c2_cache_skip_iff_exists_and_idempotent (fs : FileSys)
    (fetch : String → Option String) (template : TemplateSource)
    (urls : List String) (txt pid color dh : String)
    (hok : (create_ballzy_ad fs fetch template urls txt pid color dh).result =
      .ok (adFileName pid dh)) :
    ((create_ballzy_ad fs fetch template urls txt pid color dh).skipped = true ↔
       (lookupFile fs (adFileName pid dh)).isSome = true) ∧
    create_ballzy_ad (create_ballzy_ad fs fetch template urls txt pid color dh).fs
        fetch template urls txt pid color dh =
      { fs := (create_ballzy_ad fs fetch template urls txt pid color dh).fs
        result := .ok (adFileName pid dh)
        skipped := true } := by
  have hmem2 : (lookupFile (create_ballzy_ad fs fetch template urls txt pid color dh).fs
      (adFileName pid dh)).isSome = true := by
    by_cases hmem : (lookupFile fs (adFileName pid dh)).isSome = true
    · simp [create_ballzy_ad, hmem]
    · cases template with
      | corrupt => simp [create_ballzy_ad, hmem] at hok
      | missing => simp [create_ballzy_ad, hmem, writeFile, lookupFile]
      | ok c => simp [create_ballzy_ad, hmem, writeFile, lookupFile]
  constructor
  · by_cases hmem : (lookupFile fs (adFileName pid dh)).isSome = true <;>
      cases template <;> simp [create_ballzy_ad, hmem]
  · exact create_skips_when_present _ fetch template urls txt pid color dh hmem2

/-- C2 witness: a concrete render performed once then repeated. -/
theorem c2_cache_skip_iff_exists_and_idempotent_witness :
    (create_ballzy_ad [] (fun u => some u) (.ok "tpl") ["u1", "u2"] "19.99€" "P1"
        NORMAL_PRICE_COLOR "8271c24d").result = .ok (adFileName "P1" "8271c24d") ∧
    ((create_ballzy_ad [] (fun u => some u) (.ok "tpl") ["u1", "u2"] "19.99€" "P1"
        NORMAL_PRICE_COLOR "8271c24d").skipped = true ↔
      (lookupFile [] (adFileName "P1" "8271c24d")).isSome = true) :=
  ⟨by decide,
   (c2_cache_skip_iff_exists_and_idempotent [] (fun u => some u) (.ok "tpl")
      ["u1", "u2"] "19.99€" "P1" NORMAL_PRICE_COLOR "8271c24d" (by decide)).1⟩

/-- The slot indices the photo loop filled, in visit order. -/
def filledIndices (l : List PastedPhoto) : List Nat := l.map PastedPhoto.slotIndex

/-- Whether the photo loop fills slot index `j`: the index is in range
of the request's URL list and the fetch of that URL succeeds. -/
def slotFilled (fetch : String → Option String) (urls : List String)
    (j : Nat) : Bool :=
  decide (j < urls.length) && (fetch (urls.getD j "")).isSome

/-- The filled indices of `fillSlotsAux` over any slot suffix: exactly
the indices whose slot gets filled. -/
theorem filledIndices_fillSlotsAux (fetch : String → Option String)
    (urls : List String) (slots : List SlotCfg) :
    ∀ i, filledIndices (fillSlotsAux fetch urls i slots) =
      (List.range' i slots.length).filter (slotFilled fetch urls) := by
  induction slots with
  | nil => intro i; rfl
  | cons s rest ih =>
    intro i
    rw [List.length_cons, List.range'_succ, List.filter_cons]
    by_cases hi : i < urls.length
    · cases hf : fetch (urls.getD i "") with
      | none =>
        have hp : slotFilled fetch urls i = false := by
          unfold slotFilled
          rw [hf]
          simp
        rw [hp]
        simp only [fillSlotsAux, if_pos hi, hf]
        simpa using ih (i + 1)
      | some img =>
        have hp : slotFilled fetch urls i = true := by
          unfold slotFilled
          rw [hf]
          simp [hi]
        rw [hp]
        simp only [fillSlotsAux, if_pos hi, hf, filledIndices, List.map_cons]
        simpa [filledIndices] using ih (i + 1)
    · have hp : slotFilled fetch urls i = false := by
        unfold slotFilled
        simp [hi]
      rw [hp]
      simp only [fillSlotsAux, if_neg hi]
      simpa using ih (i + 1)

/-- The filled indices of the photo loop over the three configured
slots. -/
theorem filledIndices_fillSlots (fetch : String → Option String)
    (urls : List String) :
    filledIndices (fillSlots fetch urls) =
      (List.range 3).filter (slotFilled fetch urls) := by
  rw [fillSlots, filledIndices_fillSlotsAux, List.range_eq_range']
  rfl

/-- Unfolding of the slot-filling test. -/
theorem slotFilled_iff (fetch : String → Option String) (urls : List String)
    (j : Nat) :
    slotFilled fetch urls j = true ↔
      j < urls.length ∧ (fetch (urls.getD j "")).isSome = true := by
  unfold slotFilled
  simp

/-- C5: a failing photo fetch/decode is non-fatal — the render still
returns the artifact path and writes the artifact, the failing slot is
left unfilled, and every other in-range slot with a successful fetch is
still filled. -/
theorem c5_photo_failure_nonfatal (fs : FileSys)
    (fetch : String → Option String) (tcontent : String) (urls : List String)
    (txt pid color dh : String) (j : Nat)
    (habs : lookupFile fs (adFileName pid dh) = none)
    (hj : j < urls.length) (hfail : fetch (urls.getD j "") = none) :
    (create_ballzy_ad fs fetch (.ok tcontent) urls txt pid color dh).result =
        .ok (adFileName pid dh) ∧
    (lookupFile (create_ballzy_ad fs fetch (.ok tcontent) urls txt pid color dh).fs
        (adFileName pid dh)).isSome = true ∧
    j ∉ filledIndices (fillSlots fetch urls) ∧
    (∀ i, i < 3 → i < urls.length → (fetch (urls.getD i "")).isSome = true →
      i ∈ filledIndices (fillSlots fetch urls)) := by
  refine ⟨?_, ?_, ?_, ?_⟩
  · simp [create_ballzy_ad, habs]
  · simp [create_ballzy_ad, habs, writeFile, lookupFile]
  · rw [filledIndices_fillSlots]
    intro hmem
    rw [List.mem_filter] at hmem
    have hs := (slotFilled_iff fetch urls j).mp hmem.2
    rw [hfail] at hs
    simp at hs
  · intro i hi3 hilen hsome
    rw [filledIndices_fillSlots, List.mem_filter]
    exact ⟨List.mem_range.mpr hi3, (slotFilled_iff fetch urls i).mpr ⟨hilen, hsome⟩⟩

/-- C5 witness: slot 1's fetch fails at a concrete request; slot 0 is
filled, the render succeeds. -/
theorem c5_photo_failure_nonfatal_witness :
    (create_ballzy_ad [] (fun u => if u = "u1" then none else some u) (.ok "tpl")
        ["u0", "u1", "u2"] "9€" "P" "#0055FF" "aaaaaaaa").result =
      .ok (adFileName "P" "aaaaaaaa") ∧
    1 ∉ filledIndices (fillSlots
        (fun u => if u = "u1" then none else some u) ["u0", "u1", "u2"]) ∧
    0 ∈ filledIndices (fillSlots
        (fun u => if u = "u1" then none else some u) ["u0", "u1", "u2"]) := by
  have h := c5_photo_failure_nonfatal [] (fun u => if u = "u1" then none else some u)
    "tpl" ["u0", "u1", "u2"] "9€" "P" "#0055FF" "aaaaaaaa" 1
    (by decide) (by decide) (by decide)
  exact ⟨h.1, h.2.2.1, h.2.2.2 0 (by decide) (by decide) (by decide)⟩

/-- C6: a request with fewer photo sources than configured slots (all
its fetches succeeding) renders successfully, fills exactly the slots
`0..k-1` for its `k` photos in index order, and leaves every higher
slot unfilled. -/
theorem c6_slot_count_tolerance (fs : FileSys)
    (fetch : String → Option String) (tcontent : String) (urls : List String)
    (txt pid color dh : String)
    (habs : lookupFile fs (adFileName pid dh) = none)
    (hfew : urls.length < 3)
    (hok : ∀ i, i < urls.length → (fetch (urls.getD i "")).isSome = true) :
    (create_ballzy_ad fs fetch (.ok tcontent) urls txt pid color dh).result =
        .ok (adFileName pid dh) ∧
    filledIndices (fillSlots fetch urls) = List.range urls.length ∧
    (∀ i, urls.length ≤ i → i ∉ filledIndices (fillSlots fetch urls)) := by
  refine ⟨by simp [create_ballzy_ad, habs], ?_, ?_⟩
  · rw [filledIndices_fillSlots]
    have hcongr : (List.range 3).filter (slotFilled fetch urls) =
        (List.range 3).filter (fun j => decide (j < urls.length)) := by
      apply List.filter_congr
      intro a _
      by_cases hlt : a < urls.length
      · unfold slotFilled
        rw [hok a hlt]
        simp [hlt]
      · unfold slotFilled
        simp [hlt]
    rw [hcongr]
    generalize urls.length = n at hfew
    interval_cases n <;> decide
  · intro i hle
    rw [filledIndices_fillSlots]
    intro hmem
    rw [List.mem_filter] at hmem
    have hs := (slotFilled_iff fetch urls i).mp hmem.2
    omega

/-- C6 witness: two photos for three slots at a concrete request. -/
theorem c6_slot_count_tolerance_witness :
    (create_ballzy_ad [] (fun u => some u) (.ok "tpl")
        ["u0", "u1"] "9€" "P" "#0055FF" "bbbbbbbb").result =
      .ok (adFileName "P" "bbbbbbbb") ∧
    filledIndices (fillSlots (fun u => some u) ["u0", "u1"]) = List.range 2 ∧
    2 ∉ filledIndices (fillSlots (fun u => some u) ["u0", "u1"]) := by
  have h := c6_slot_count_tolerance [] (fun u => some u) "tpl" ["u0", "u1"]
    "9€" "P" "#0055FF" "bbbbbbbb" (by decide) (by decide)
    (fun i hi => by simp)
  exact ⟨h.1, h.2.1, h.2.2 2 (by decide)⟩

/-- C7 counterexample: a product record whose primary photo source
(`g:image_link`) is missing but which carries one additional photo
source is NOT excluded — the extraction loop appends it to the render
set, with the additional photo promoted to slot 0. -/
theorem c7_missing_primary_photo_not_excluded :
    itemNoPrimary.gImageLink = none ∧
    extractItem "EUR" "b36d92d5" itemNoPrimary =
      .ok (some
        { id := "X1", price_state := "normal", formatted_price := "10€",
          formatted_sale_price := "", image_urls := ["a1"],
          final_price_color := "#0055FF", formatted_display_price := "10€",
          data_hash := "d165c086" }) := by decide

/-- C7 (amended): a record missing its identifier (absent element or
null text) is silently excluded; a record whose collected photo-source
list is empty (primary and additionals all absent/empty) is excluded
unless a malformed price aborts the run first; a record missing only
the primary photo while an additional photo is present is not excluded.
An exclusion is a plain `continue`: the loop result on the remaining
items is unchanged. -/
theorem c7_exclusion_conditions (currency th : String) :
    (∀ item : FeedItem, (item.gId = none ∨ item.gId = some none) →
       extractItem currency th item = .ok none) ∧
    (∀ item : FeedItem, imageUrls item = [] →
       extractItem currency th item = .ok none ∨
         ∃ e, extractItem currency th item = .error e) ∧
    (∀ (item : FeedItem) (rest : List FeedItem) (count : Nat),
       extractItem currency th item = .ok none →
       count < MAX_PRODUCTS_TO_GENERATE →
       processLoop currency th (item :: rest) count =
         processLoop currency th rest count) := by
  refine ⟨?_, ?_, ?_⟩
  · rintro item (hid | hid) <;> simp [extractItem, hid]
  · intro item himg
    rcases hid : item.gId with _ | oid
    · left
      simp [extractItem, hid]
    rcases oid with _ | idText
    · left
      simp [extractItem, hid]
    rcases hfl : (is_correct_category item && is_lifestyle item) with _ | _
    · left
      simp [extractItem, hid, hfl]
    rcases hsp : item.gSalePrice with _ | spt
    · rcases hp : item.gPrice with _ | pt
      · left
        simp [extractItem, hid, hfl, hsp, hp]
      · rcases hf : format_price currency (some pt) with e | s
        · right
          exact ⟨e, by simp [extractItem, hid, hfl, hsp, hp, hf]⟩
        · left
          simp [extractItem, hid, hfl, hsp, hp, hf, himg]
    · rcases hf : format_price currency (some spt) with e | s
      · right
        exact ⟨e, by simp [extractItem, hid, hfl, hsp, hf]⟩
      · left
        simp [extractItem, hid, hfl, hsp, hf, himg]
  · intro item rest count hskip hcount
    have hnle : ¬ MAX_PRODUCTS_TO_GENERATE ≤ count := by omega
    simp [processLoop, hnle, hskip]

/-- A feed item with every element absent. -/
def itemNoId : FeedItem :=
  { gId := none, gGoogleProductCategory := none, gCategory := none,
    plainGoogleProductCategory := none, customLabel0 := none,
    gSalePrice := none, gPrice := none, gImageLink := none,
    gAdditionalImageLinks := [] }

/-- C7 witness: a concrete identifier-less record is skipped and leaves
the loop outcome unchanged. -/
theorem c7_exclusion_conditions_witness :
    extractItem "EUR" "b36d92d5" itemNoId = .ok none ∧
    processLoop "EUR" "b36d92d5" [itemNoId] 0 =
      processLoop "EUR" "b36d92d5" [] 0 :=
  ⟨(c7_exclusion_conditions "EUR" "b36d92d5").1 itemNoId (Or.inl rfl),
   (c7_exclusion_conditions "EUR" "b36d92d5").2.2 itemNoId [] 0
     ((c7_exclusion_conditions "EUR" "b36d92d5").1 itemNoId (Or.inl rfl))
     (by decide)⟩

/-- Inversion of a successful extraction: the record passed both
filters, and its color/state fields are determined by the presence of
the `g:sale_price` element exactly as lines 440-449 select them. -/
theorem extractItem_ok_inversion (currency th : String) (item : FeedItem)
    (p : ProductData) (h : extractItem currency th item = .ok (some p)) :
    is_correct_category item = true ∧ is_lifestyle item = true ∧
    (((∃ t, item.gSalePrice = some t) ∧
        p.final_price_color = SALE_PRICE_COLOR ∧ p.price_state = "sale") ∨
      (item.gSalePrice = none ∧ (∃ t, item.gPrice = some t) ∧
        p.final_price_color = NORMAL_PRICE_COLOR ∧ p.price_state = "normal")) := by
  have hok0 : format_price currency none = Except.ok "" := rfl
  have hok1 : format_price currency (some none) = Except.ok "" := rfl
  rcases hid : item.gId with _ | oid
  · simp [extractItem, hid, rawText] at h
  rcases oid with _ | idText
  · simp [extractItem, hid, rawText] at h
  rcases hfl : (is_correct_category item && is_lifestyle item) with _ | _
  · simp [extractItem, hid, hfl, rawText] at h
  have hflt : is_correct_category item = true ∧ is_lifestyle item = true := by
    simpa using hfl
  refine ⟨hflt.1, hflt.2, ?_⟩
  rcases hsp : item.gSalePrice with _ | spt
  all_goals rcases hp : item.gPrice with _ | pt
  · -- no sale element, no price element: the item is skipped
    simp [extractItem, hid, hfl, hsp, hp, rawText] at h
  · -- normal price path
    refine Or.inr ⟨rfl, ⟨pt, rfl⟩, ?_⟩
    rcases hf : format_price currency (some pt) with e | s
    · simp [extractItem, hid, hfl, hsp, hp, hf, rawText] at h
    rcases himg : (imageUrls item).isEmpty with _ | _
    · rcases pt with _ | rp
      · simp [extractItem, hid, hfl, hsp, hp, hf, himg, rawText] at h
      simp [extractItem, hid, hfl, hsp, hp, hf, himg, hok0, rawText] at h
      subst h
      exact ⟨rfl, rfl⟩
    · simp [extractItem, hid, hfl, hsp, hp, hf, himg, rawText] at h
  · -- sale element present, price element absent
    refine Or.inl ⟨⟨spt, rfl⟩, ?_⟩
    rcases hf : format_price currency (some spt) with e | s
    · simp [extractItem, hid, hfl, hsp, hp, hf, rawText] at h
    rcases himg : (imageUrls item).isEmpty with _ | _
    · rcases spt with _ | rsp
      · simp [extractItem, hid, hfl, hsp, hp, hf, himg, rawText] at h
      simp [extractItem, hid, hfl, hsp, hp, hf, himg, hok0, rawText] at h
      subst h
      exact ⟨rfl, rfl⟩
    · simp [extractItem, hid, hfl, hsp, hp, hf, himg, rawText] at h
  · -- sale element present, price element present
    refine Or.inl ⟨⟨spt, rfl⟩, ?_⟩
    rcases hf : format_price currency (some spt) with e | s
    · simp [extractItem, hid, hfl, hsp, hp, hf, rawText] at h
    rcases himg : (imageUrls item).isEmpty with _ | _
    · rcases spt with _ | rsp
      · simp [extractItem, hid, hfl, hsp, hp, hf, himg, rawText] at h
      rcases pt with _ | rp
      · simp [extractItem, hid, hfl, hsp, hp, hf, himg, rawText] at h
      rcases hfp : format_price currency (some (some rp)) with e2 | fp
      · simp [extractItem, hid, hfl, hsp, hp, hf, himg, hfp, rawText] at h
      simp [extractItem, hid, hfl, hsp, hp, hf, himg, hfp, rawText] at h
      subst h
      exact ⟨rfl, rfl⟩
    · simp [extractItem, hid, hfl, hsp, hp, hf, himg, rawText] at h

/-- C9: the presence of the `g:sale_price` element selects the sale
state with the fixed sale color, its absence (with a price present)
selects the normal state with the fixed normal color, and the price
text drawn on the artifact uses exactly the selected color. -/
theorem c9_price_state_selects_color (currency th : String) (item : FeedItem)
    (p : ProductData) (h : extractItem currency th item = .ok (some p)) :
    ((∃ t, item.gSalePrice = some t) →
       p.price_state = "sale" ∧ p.final_price_color = SALE_PRICE_COLOR) ∧
    (item.gSalePrice = none →
       p.price_state = "normal" ∧ p.final_price_color = NORMAL_PRICE_COLOR) ∧
    (∀ (fs : FileSys) (fetch : String → Option String) (tcontent : String),
      lookupFile fs (adFileName p.id p.data_hash) = none →
      (lookupFile (create_ballzy_ad fs fetch (.ok tcontent) p.image_urls
          p.formatted_display_price p.id p.final_price_color p.data_hash).fs
        (adFileName p.id p.data_hash)).map AdImage.textColor =
          some p.final_price_color) := by
  have hinv := extractItem_ok_inversion currency th item p h
  refine ⟨?_, ?_, ?_⟩
  · rintro ⟨t, hspt⟩
    rcases hinv.2.2 with ⟨_, hc, hs⟩ | ⟨hnone, _, _, _⟩
    · exact ⟨hs, hc⟩
    · rw [hspt] at hnone
      simp at hnone
  · intro hnone
    rcases hinv.2.2 with ⟨⟨t, hspt⟩, _, _⟩ | ⟨_, _, hc, hs⟩
    · rw [hnone] at hspt
      simp at hspt
    · exact ⟨hs, hc⟩
  · intro fs fetch tcontent habs
    simp [create_ballzy_ad, habs, writeFile, lookupFile]

/-- The product record `itemP1Sale` extracts to under template hash
`"b36d92d5"`. -/
def productP1Sale : ProductData :=
  { id := "P1"
    price_state := "sale"
    formatted_price := "19.99€"
    formatted_sale_price := "15.99€"
    image_urls := ["u1", "u2"]
    final_price_color := "#cc02d2"
    formatted_display_price := "15.99€"
    data_hash := "6c594351" }

/-- C9 witness: a concrete sale-price item gets the sale state and sale
color; a concrete item without sale price gets the normal state and
normal color. -/
theorem c9_price_state_selects_color_witness :
    (productP1Sale.price_state = "sale" ∧
      productP1Sale.final_price_color = SALE_PRICE_COLOR) ∧
    (productP1.price_state = "normal" ∧
      productP1.final_price_color = NORMAL_PRICE_COLOR) :=
  ⟨(c9_price_state_selects_color "EUR" "b36d92d5" itemP1Sale productP1Sale
      (by decide)).1 ⟨some "15.99 EUR", rfl⟩,
   (c9_price_state_selects_color "EUR" "b36d92d5" itemP1 productP1
      (by decide)).2.1 rfl⟩

/-- The extraction loop appends at most `MAX - count` further products
once `count` products have been taken. -/
theorem processLoop_length (currency th : String) :
    ∀ (items : List FeedItem) (count : Nat) (ps : List ProductData)
      (names : List String),
      processLoop currency th items count = .ok (ps, names) →
      ps.length ≤ MAX_PRODUCTS_TO_GENERATE - count := by
  intro items
  induction items with
  | nil =>
    intro count ps names h
    simp [processLoop] at h
    obtain ⟨h1, h2⟩ := h
    subst h1
    simp
  | cons item rest ih =>
    intro count ps names h
    simp only [processLoop] at h
    by_cases hle : MAX_PRODUCTS_TO_GENERATE ≤ count
    · rw [if_pos hle] at h
      simp at h
      obtain ⟨h1, h2⟩ := h
      subst h1
      simp
    · rw [if_neg hle] at h
      cases hx : extractItem currency th item with
      | error e =>
        rw [hx] at h
        simp at h
      | ok o =>
        rw [hx] at h
        cases o with
        | none => exact ih count ps names h
        | some p =>
          cases hr : processLoop currency th rest (count + 1) with
          | error e =>
            rw [hr] at h
            simp at h
          | ok pr =>
            rw [hr] at h
            obtain ⟨ps', names'⟩ := pr
            simp at h
            obtain ⟨hps, hnames⟩ := h
            have hih := ih (count + 1) ps' names' hr
            rw [← hps]
            simp only [List.length_cons]
            omega

/-- C10: a product is appended to the render set only if its category
text contains "street shoes" or "boots" (case-insensitive) and its
`custom_label_0` equals "lifestyle" (case-insensitive); an item failing
the filter is silently skipped (`continue`, no error); and at most 5000
products are extracted per country feed. -/
theorem c10_category_label_filter_and_cap (currency th : String) :
    (∀ (item : FeedItem) (p : ProductData),
       extractItem currency th item = .ok (some p) →
       is_correct_category item = true ∧ is_lifestyle item = true) ∧
    (∀ item : FeedItem,
       (is_correct_category item && is_lifestyle item) = false →
       extractItem currency th item = .ok none) ∧
    (∀ (items : List FeedItem) (ps : List ProductData) (names : List String),
       processFeedItems currency th items = .ok (ps, names) →
       ps.length ≤ MAX_PRODUCTS_TO_GENERATE) := by
  refine ⟨?_, ?_, ?_⟩
  · intro item p h
    have hinv := extractItem_ok_inversion currency th item p h
    exact ⟨hinv.1, hinv.2.1⟩
  · intro item hfl
    rcases hid : item.gId with _ | oid
    · simp [extractItem, hid]
    rcases oid with _ | t
    · simp [extractItem, hid]
    · simp [extractItem, hid, hfl]
  · intro items ps names h
    have hlen := processLoop_length currency th items 0 ps names h
    simpa using hlen

/-- C10 witness: the concrete item `itemP1` passes both filters and is
extracted; flipping its label makes it silently skipped; a one-item feed
yields at most 5000 products. -/
theorem c10_category_label_filter_and_cap_witness :
    (is_correct_category itemP1 = true ∧ is_lifestyle itemP1 = true) ∧
    extractItem "EUR" "b36d92d5"
      { itemP1 with customLabel0 := some (some "other") } = .ok none ∧
    [productP1].length ≤ MAX_PRODUCTS_TO_GENERATE :=
  ⟨(c10_category_label_filter_and_cap "EUR" "b36d92d5").1 itemP1 productP1 (by decide),
   (c10_category_label_filter_and_cap "EUR" "b36d92d5").2.1
     { itemP1 with customLabel0 := some (some "other") } (by decide),
   (c10_category_label_filter_and_cap "EUR" "b36d92d5").2.2 [itemP1] [productP1]
     ["ad_P1_8271c24d.jpg"] (by decide)⟩

/-- The sixteen lower-case hexadecimal digits. -/
def hexDigitChars : List Char := "0123456789abcdef".data

/-- `hexChar` always produces a hexadecimal digit. -/
theorem hexChar_mem (n : Nat) (hn : n < 16) : hexChar n ∈ hexDigitChars := by
  interval_cases n <;> decide

/-- A word's hex rendering has eight digits. -/
theorem word8Hex_length (x : Nat) : (word8Hex x).length = 8 := by
  simp [word8Hex]

/-- Every character of a word's hex rendering is a hex digit. -/
theorem word8Hex_mem (x : Nat) (c : Char) (hc : c ∈ word8Hex x) :
    c ∈ hexDigitChars := by
  simp only [word8Hex, List.mem_map, List.mem_range] at hc
  obtain ⟨i, _, rfl⟩ := hc
  exact hexChar_mem _ (Nat.mod_lt _ (by omega))

/-- Flattening the hex renderings of a word list gives 8 digits per
word. -/
theorem flatten_word8Hex_length (ws : List Nat) :
    ((ws.map word8Hex).flatten).length = 8 * ws.length := by
  induction ws with
  | nil => rfl
  | cons w rest ih =>
    simp only [List.map_cons, List.flatten_cons, List.length_append,
      word8Hex_length, ih, List.length_cons]
    omega

/-- The SHA-1 result always flattens from five state words. -/
theorem sha1Words_length (msg : List Nat) : (sha1Words msg).length = 5 := by
  unfold sha1Words
  generalize (chunks64 (sha1pad msg)).foldl sha1Block
    (1732584193, 4023233417, 2562383102, 271733878, 3285377520) = st
  obtain ⟨a, b, c, d, e⟩ := st
  rfl

/-- A SHA-1 hex digest has 40 characters. -/
theorem sha1HexChars_length (msg : List Nat) : (sha1HexChars msg).length = 40 := by
  unfold sha1HexChars
  rw [flatten_word8Hex_length, sha1Words_length]

/-- Every character of a SHA-1 hex digest is a hex digit. -/
theorem sha1HexChars_mem (msg : List Nat) (c : Char)
    (hc : c ∈ sha1HexChars msg) : c ∈ hexDigitChars := by
  unfold sha1HexChars at hc
  rw [List.mem_flatten] at hc
  obtain ⟨l, hl, hcl⟩ := hc
  rw [List.mem_map] at hl
  obtain ⟨w, _, rfl⟩ := hl
  exact word8Hex_mem w c hcl

/-- The content fingerprint always has exactly 8 characters. -/
theorem data_hash_length (pid sp rp : String) (urls : List String)
    (th : String) : (data_hash pid sp rp urls th).length = 8 := by
  unfold data_hash
  rw [String.length_mk, List.length_take, sha1HexChars_length]
  decide

/-- The character list underlying `String.mk`. -/
theorem string_mk_data (l : List Char) : (String.mk l).data = l := rfl

/-- Every character of the content fingerprint is a lower-case hex
digit. -/
theorem data_hash_chars (pid sp rp : String) (urls : List String)
    (th : String) (c : Char) (hc : c ∈ (data_hash pid sp rp urls th).data) :
    c ∈ hexDigitChars := by
  unfold data_hash at hc
  rw [string_mk_data] at hc
  exact sha1HexChars_mem _ c (List.take_subset 8 _ hc)

/-- C8 (amended): the artifact file name has the exact shape
`ad_{productId}_{fingerprint}.jpg` with an 8-character lower-case hex
fingerprint and no format suffix (the program has a single hard-coded
format), and all three republished feeds construct the product's public
image URL from exactly that same file name. -/
theorem c8_artifact_name_shape (pid sp rp th : String) (urls : List String) :
    adFileName pid (data_hash pid sp rp urls th) =
      "ad_" ++ pid ++ "_" ++ data_hash pid sp rp urls th ++ ".jpg" ∧
    (data_hash pid sp rp urls th).length = 8 ∧
    (∀ c ∈ (data_hash pid sp rp urls th).data, c ∈ hexDigitChars) ∧
    (∀ p : ProductData,
      metaImageLink p = GITHUB_PAGES_BASE_URL ++ "/" ++ adFileName p.id p.data_hash ∧
      tiktokImageLink p = GITHUB_PAGES_BASE_URL ++ "/" ++ adFileName p.id p.data_hash ∧
      googleImageUrl p = GITHUB_PAGES_BASE_URL ++ "/" ++ adFileName p.id p.data_hash) := by
  have hlit : ("/ad_" : String).data = ("/" : String).data ++ ("ad_" : String).data := by
    decide
  refine ⟨rfl, data_hash_length pid sp rp urls th,
    fun c hc => data_hash_chars pid sp rp urls th c hc, fun p => ?_⟩
  refine ⟨?_, ?_, ?_⟩ <;>
    · apply String.ext
      simp [metaImageLink, tiktokImageLink, googleImageUrl, adFileName,
        String.data_append, hlit, List.append_assoc]

/-- C8 witness: the name shape and hex fingerprint at the concrete `P1`
request, and the feed URL of the concrete extracted product. -/
theorem c8_artifact_name_shape_witness :
    (data_hash "P1" "" "19.99 EUR" ["u1", "u2"] "b36d92d5").length = 8 ∧
    metaImageLink productP1 =
      GITHUB_PAGES_BASE_URL ++ "/" ++ adFileName productP1.id productP1.data_hash :=
  ⟨(c8_artifact_name_shape "P1" "" "19.99 EUR" "b36d92d5" ["u1", "u2"]).2.1,
   ((c8_artifact_name_shape "P1" "" "19.99 EUR" "b36d92d5" ["u1", "u2"]).2.2.2
     productP1).1⟩

/-- C8 counterexample: for the spec's end-to-end scenario (product `P1`,
price "19.99", sale absent, two photo sources) the artifact name the
code computes is `ad_P1_8271c24d.jpg` — it does not carry the `_sq`
format suffix of the spec's example name `ad_P1_{8-hex}_sq.jpg`. -/
theorem c8_no_square_suffix_in_name :
    adFileName "P1" (data_hash "P1" "" "19.99 EUR" ["u1", "u2"] "b36d92d5") =
      "ad_P1_8271c24d.jpg" ∧
    listStartsWith
      (adFileName "P1"
        (data_hash "P1" "" "19.99 EUR" ["u1", "u2"] "b36d92d5")).data.reverse
      ("_sq.jpg".data.reverse) = false := by decide
